import Mathlib

/-!
Shallow embedding of the rollup build-pipeline orchestrator
(`src/rollup/index.ts`): option values and option normalization, the
build and generate promise chains, chunk naming, output sorting, and the
public handle's `generate`/`write` entry points.  Collaborators that live
outside this file of the repository (the Graph, the per-chunk renderer,
the chunk post-optimizer, plugin hook bodies) are abstracted as outcome
parameters; everything else is translated from the source.
-/

namespace RollupCore

/-- JavaScript option values as the orchestrator reads them: strings,
booleans, or `undefined` (which also stands for an absent property). -/
inductive JsVal where
  | str (s : String)
  | boolean (b : Bool)
  | undef
deriving DecidableEq, Repr

/-- A JavaScript object as an association list of properties.  Lookup
takes the first matching binding, so an overriding spread puts its
bindings in front (see `jsSpread`). -/
abbrev JsObj := List (String × JsVal)

/-- Property read `o[k]`; an absent property reads as `undefined`. -/
def getProp (o : JsObj) (k : String) : JsVal :=
  match o.find? (fun p => p.1 == k) with
  | some p => p.2
  | none => JsVal.undef

/-- Whether the object has an own property named `k`. -/
def hasProp (o : JsObj) (k : String) : Bool :=
  (o.find? (fun p => p.1 == k)).isSome

/-- Spread `\x7b ...a, ...b \x7d`: the later spread wins, so with
first-match lookup the merged object is `b ++ a`. -/
def jsSpread (a b : JsObj) : JsObj := b ++ a

/-- JavaScript truthiness of an option value. -/
def JsVal.truthy : JsVal → Bool
  | .str s => s != ("")
  | .boolean b => b
  | .undef => false

/-- `typeof v === 'string'`. -/
def JsVal.isStringVal : JsVal → Bool
  | .str _ => true
  | _ => false

/-- String coercion of an option value (used where the source feeds a
value it has already checked into a string-consuming utility). -/
def JsVal.asString : JsVal → String
  | .str s => s
  | .boolean true => ("true")
  | .boolean false => ("false")
  | .undef => ("undefined")

/-- An error raised through the `error(...)` utility or a thrown `Error`:
an optional machine code plus a human message. -/
structure RollupError where
  code : Option String
  message : String
deriving DecidableEq, Repr

/-- The `input` entry specifier: a single identifier, an ordered list, a
named map (keys are the object's own keys, hence distinct), or absent. -/
inductive InputValue where
  | str (s : String)
  | arr (xs : List String)
  | obj (kvs : List (String × String))
  | undef
deriving DecidableEq, Repr

/-- The normalized input configuration as `getInputOptions` inspects it.
The option-merging utility and the plugin `options` hooks run before the
checks modelled here and are collaborators outside this file; the record
holds the already-merged values (flags carry the truthiness of the
corresponding option). -/
structure InputOpts where
  input : InputValue
  preserveModules : Bool
  inlineDynamicImports : Bool
  manualChunks : Bool
  optimizeChunks : Bool
  output : JsObj
deriving DecidableEq, Repr

/-- `(input instanceof Array && input.length > 1) ||
(typeof input === 'object' && Object.keys(input).length > 1)`.
For an array the second disjunct repeats the first (`Object.keys` of an
array lists its indices); for a string or `undefined` both are false. -/
def hasMultipleInputs : InputValue → Bool
  | .arr xs => xs.length > 1
  | .obj kvs => kvs.length > 1
  | _ => false

/-- `typeof inputOptions.input === 'object' && !Array.isArray(inputOptions.input)`. -/
def isNamedInputObject : InputValue → Bool
  | .obj _ => true
  | _ => false

def errNoInputOptions : RollupError :=
  ⟨none, ("You must supply an options object to rollup")⟩

def errManualChunksInline : RollupError :=
  ⟨some ("INVALID_OPTION"), ("\"manualChunks\" option is not supported for inlineDynamicImports.")⟩

def errOptimizeInline : RollupError :=
  ⟨some ("INVALID_OPTION"), ("\"optimizeChunks\" option is not supported for inlineDynamicImports.")⟩

def errMultipleInputsInline : RollupError :=
  ⟨some ("INVALID_OPTION"), ("Multiple inputs are not supported for inlineDynamicImports.")⟩

def errPreserveInline : RollupError :=
  ⟨some ("INVALID_OPTION"), ("preserveModules does not support the inlineDynamicImports option.")⟩

def errPreserveManual : RollupError :=
  ⟨some ("INVALID_OPTION"), ("preserveModules does not support the manualChunks option.")⟩

def errPreserveOptimize : RollupError :=
  ⟨some ("INVALID_OPTION"), ("preserveModules does not support the optimizeChunks option.")⟩

/-- `getInputOptions`: rejects an absent options object, then enforces the
input-option invariants in source order (the merging utility, plugin
filtering and the plugin `options` hooks have already produced `o`). -/
def getInputOptions : Option InputOpts → Except RollupError InputOpts
  | none => Except.error errNoInputOptions
  | some o =>
    if o.inlineDynamicImports && o.manualChunks then
      Except.error errManualChunksInline
    else if o.inlineDynamicImports && o.optimizeChunks then
      Except.error errOptimizeInline
    else if o.inlineDynamicImports && hasMultipleInputs o.input then
      Except.error errMultipleInputsInline
    else if o.preserveModules && o.inlineDynamicImports then
      Except.error errPreserveInline
    else if o.preserveModules && o.manualChunks then
      Except.error errPreserveManual
    else if o.preserveModules && o.optimizeChunks then
      Except.error errPreserveOptimize
    else Except.ok o

def errEs6 : RollupError :=
  ⟨none, ("The `es6` output format is deprecated – use `esm` instead")⟩

def errNoFormat : RollupError :=
  ⟨none, ("You must specify output.format, which can be one of 'amd', 'cjs', 'system', 'esm', 'iife' or 'umd'")⟩

def errFileAndDir : RollupError :=
  ⟨some ("INVALID_OPTION"), ("You must set either output.file for a single-file build or output.dir when generating multiple chunks.")⟩

def errFilePreserveModules : RollupError :=
  ⟨some ("INVALID_OPTION"), ("You must set output.dir instead of output.file when using the preserveModules option.")⟩

def errFileNamedInputs : RollupError :=
  ⟨some ("INVALID_OPTION"), ("You must set output.dir instead of output.file when providing named inputs.")⟩

def errUmdIifeCodeSplit : RollupError :=
  ⟨some ("INVALID_OPTION"), ("UMD and IIFE output formats are not supported for code-splitting builds.")⟩

def errMultiChunkFile : RollupError :=
  ⟨some ("INVALID_OPTION"), ("You must set output.dir instead of output.file when generating multiple chunks.")⟩

def errNoOutputOptions : RollupError :=
  ⟨none, ("You must supply an options object")⟩

/-- `checkOutputOptions`: rejects the deprecated `es6` format tag (strict
string comparison) and a missing (falsy) `format`. -/
def checkOutputOptions (o : JsObj) : Except RollupError Unit :=
  if getProp o ("format") = JsVal.str ("es6") then
    Except.error errEs6
  else if !(getProp o ("format")).truthy then
    Except.error errNoFormat
  else Except.ok ()

/-- The `typeof outputOptions.file === 'string'` block of
`normalizeOutputOptions`: `file` with `dir`, with `preserveModules`, or
with a named-input map is rejected. -/
def checkFileOptions (inputOptions : InputOpts) (o : JsObj) : Except RollupError Unit :=
  if (getProp o ("file")).isStringVal then
    if (getProp o ("dir")).isStringVal then
      Except.error errFileAndDir
    else if inputOptions.preserveModules then
      Except.error errFilePreserveModules
    else if isNamedInputObject inputOptions.input then
      Except.error errFileNamedInputs
    else Except.ok ()
  else Except.ok ()

/-- The `hasMultipleChunks` gate of `normalizeOutputOptions`: UMD/IIFE
formats and a string `file` are rejected for code-splitting builds. -/
def checkMultiChunk (o : JsObj) (hasMultipleChunks : Bool) : Except RollupError Unit :=
  if hasMultipleChunks then
    if getProp o ("format") = JsVal.str ("umd") || getProp o ("format") = JsVal.str ("iife") then
      Except.error errUmdIifeCodeSplit
    else if (getProp o ("file")).isStringVal then
      Except.error errMultiChunkFile
    else Except.ok ()
  else Except.ok ()

/-- The consolidated output object
`\x7b ...rawOutputOptions, ...rawOutputOptions.output, ...inputOptions.output \x7d`:
the raw call-site object is given as the pair of its root properties and
its `output` sub-object.  The last spread wins, so the input's `output`
defaults override the call-site values. -/
def consolidatedOutputOptions (inputOptions : InputOpts) (raw rawOutputField : JsObj) : JsObj :=
  jsSpread (jsSpread raw rawOutputField) inputOptions.output

/-- `normalizeOutputOptions`: rejects an absent output object, builds the
consolidated output object, and runs the option checks in source order.
The option-merging utility sits outside this file; on a single
consolidated output object it yields that object back (its array handling
collapses to the first element), so it is modelled as the identity. -/
def normalizeOutputOptions (inputOptions : InputOpts)
    (rawOutputOptions : Option (JsObj × JsObj))
    (hasMultipleChunks : Bool) : Except RollupError JsObj :=
  match rawOutputOptions with
  | none => Except.error errNoOutputOptions
  | some (raw, rawOutputField) =>
    let outputOptions := consolidatedOutputOptions inputOptions raw rawOutputField
    match checkOutputOptions outputOptions with
    | .error e => Except.error e
    | .ok _ =>
      match checkFileOptions inputOptions outputOptions with
      | .error e => Except.error e
      | .ok _ =>
        match checkMultiChunk outputOptions hasMultipleChunks with
        | .error e => Except.error e
        | .ok _ => Except.ok outputOptions

/-- A bundle entry as `createOutput`, the writer and the write-time chunk
count read it: its final file name, the `isAsset` tag of asset entries,
and the `isEntry` flag of chunk entries. -/
structure OutputFile where
  fileName : String
  isAsset : Bool
  isEntry : Bool
deriving DecidableEq, Repr

/-- `getSortingFileType` (ENTRY_CHUNK = 0, SECONDARY_CHUNK = 1, ASSET = 2). -/
def getSortingFileType (f : OutputFile) : Nat :=
  if f.isAsset then 2 else if f.isEntry then 0 else 1

/-- The comparator passed to `.sort` in `createOutput`. -/
def fileComparator (a b : OutputFile) : Int :=
  if getSortingFileType a = getSortingFileType b then 0
  else if getSortingFileType a < getSortingFileType b then -1 else 1

/-- One insertion step of the stable sort: the element goes in front of
the first position it need not pass (so it stays behind earlier elements
that compare equal, and in front of later ones). -/
def sortInsert (x : OutputFile) : List OutputFile → List OutputFile
  | [] => [x]
  | y :: ys => if fileComparator x y ≤ 0 then x :: y :: ys else y :: sortInsert x ys

/-- `Array.prototype.sort` with a consistent comparator denotes the
stable sort by that comparator (stability is guaranteed by the language
specification); modelled as insertion sort. -/
def jsStableSort : List OutputFile → List OutputFile
  | [] => []
  | x :: xs => sortInsert x (jsStableSort xs)

/-- `createOutput`: the bundle values in insertion order
(`Object.keys(outputBundle).map(...)`), sorted by the file-type
comparator. -/
def createOutput (bundle : List OutputFile) : List OutputFile :=
  jsStableSort bundle

/-- A chunk as the orchestrator reads it: the entry module's identifier
when the chunk has one (`chunk.entryModule` presence), and the
entry-facade flag.  Rendering attributes live in the Graph collaborator. -/
structure Chunk where
  entryModuleId : Option String
  isEntryModuleFacade : Bool
deriving DecidableEq, Repr

/-- Modelled from the spec: the `basename` path utility (a collaborator
under `utils/path`, outside this file) — the final path component. -/
def basename (p : String) : String :=
  match (p.splitOn ("/")).getLast? with
  | some s => s
  | none => p

/-- Banner/footer/intro/outro text contributed by extensions, produced by
the `createAddons` collaborator. -/
structure Addons where
  banner : String
  footer : String
  intro : String
  outro : String
deriving DecidableEq, Repr

/-- `outputOptions.entryFileNames || '[name].js'`. -/
def resolvedEntryPattern (o : JsObj) : String :=
  if (getProp o ("entryFileNames")).truthy then (getProp o ("entryFileNames")).asString
  else ("[name].js")

/-- `outputOptions.chunkFileNames || '[name]-[hash].js'`. -/
def resolvedChunkPattern (o : JsObj) : String :=
  if (getProp o ("chunkFileNames")).truthy then (getProp o ("chunkFileNames")).asString
  else ("[name]-[hash].js")

/-- The chunk-naming loop of `generate`, with the `usedIds` accumulator
threaded through: a truthy `outputOptions.file` names every chunk
`basename(file)`; under `preserveModules` the chunk's preserve-modules
generator is delegated to with `inputBase`; otherwise id generation is
delegated with the selected pattern, the addons, the output config and
the ids used so far, and the returned id is recorded in `usedIds`.
`genId` and `genIdPM` are the chunk collaborator's generators. -/
def nameChunksGo (o : JsObj) (preserveModules : Bool)
    (genId : Chunk → String → String → Addons → JsObj → List String → String)
    (genIdPM : Chunk → String → String) (addons : Addons) (inputBase : String) :
    List Chunk → List String → List String
  | [], _ => []
  | c :: rest, usedIds =>
    if (getProp o ("file")).truthy then
      basename ((getProp o ("file")).asString) ::
        nameChunksGo o preserveModules genId genIdPM addons inputBase rest usedIds
    else if preserveModules then
      genIdPM c inputBase ::
        nameChunksGo o preserveModules genId genIdPM addons inputBase rest usedIds
    else
      let pat := if c.isEntryModuleFacade then resolvedEntryPattern o else resolvedChunkPattern o
      let patName := if c.isEntryModuleFacade then ("output.entryFileNames")
        else ("output.chunkFileNames")
      let id := genId c pat patName addons o usedIds
      id :: nameChunksGo o preserveModules genId genIdPM addons inputBase rest (usedIds ++ [id])

/-- The naming pass over all chunks, with `usedIds` seeded empty. -/
def nameChunks (o : JsObj) (preserveModules : Bool)
    (genId : Chunk → String → String → Addons → JsObj → List String → String)
    (genIdPM : Chunk → String → String) (addons : Addons) (inputBase : String)
    (chunks : List Chunk) : List String :=
  nameChunksGo o preserveModules genId genIdPM addons inputBase chunks []

/-- `outputBundle[chunk.id] = ...`: keyed assignment on a JavaScript
object — an existing key keeps its position and is overwritten, a new key
is appended. -/
def bundleInsert (b : List OutputFile) (f : OutputFile) : List OutputFile :=
  if b.any (fun g => g.fileName == f.fileName) then
    b.map (fun g => if g.fileName == f.fileName then f else g)
  else b ++ [f]

/-- A call on the public handle either throws synchronously before any
promise exists, or returns a promise that settles to a value or a
rejection. -/
inductive CallResult (α : Type) where
  | thrown (e : RollupError)
  | promise (r : Except RollupError α)
deriving Repr

/-- Whether the call returned a promise that rejected. -/
def CallResult.isRejectedPromise : CallResult α → Bool
  | .promise (.error _) => true
  | _ => false

/-- Dispatches of the build-phase hooks, in dispatch order; `buildEnd`
records the error it receives, if any. -/
inductive BuildEvent where
  | buildStart
  | buildEnd (err : Option RollupError)
deriving DecidableEq, Repr

def isBuildEndEvent : BuildEvent → Bool
  | BuildEvent.buildEnd _ => true
  | _ => false

/-- Outcomes of the build-phase collaborators: the parallel `buildStart`
dispatch, `graph.build` (the ordered chunk list or its failure), and the
parallel `buildEnd` dispatch as a function of the error it is handed. -/
structure BuildHooks where
  buildStart : Except RollupError Unit
  graphBuild : Except RollupError (List Chunk)
  buildEnd : Option RollupError → Except RollupError Unit

/-- The build promise chain
`hookParallel('buildStart').then(() => graph.build(...)).then(onOk, onErr)`:
the rejection handler of the second `then` also catches a `buildStart`
failure; on the success path `buildEnd` is dispatched without an error,
on the failure path with the error and the error is rethrown afterwards
(so a `buildEnd` failure replaces it). -/
def buildPhase (h : BuildHooks) : List BuildEvent × Except RollupError (List Chunk) :=
  match h.buildStart with
  | .error e =>
    ([BuildEvent.buildStart, BuildEvent.buildEnd (some e)],
     match h.buildEnd (some e) with
     | .error e2 => Except.error e2
     | .ok _ => Except.error e)
  | .ok _ =>
    match h.graphBuild with
    | .ok chunks =>
      ([BuildEvent.buildStart, BuildEvent.buildEnd none],
       match h.buildEnd none with
       | .error e2 => Except.error e2
       | .ok _ => Except.ok chunks)
    | .error e =>
      ([BuildEvent.buildStart, BuildEvent.buildEnd (some e)],
       match h.buildEnd (some e) with
       | .error e2 => Except.error e2
       | .ok _ => Except.error e)

/-- The top-level `rollup(...)` entry: its whole synchronous body is
wrapped in `try/catch(err => Promise.reject(err))`, so a normalization
failure surfaces as a rejected promise, never as a synchronous throw;
otherwise the build promise chain runs. -/
def rollupCall (raw : Option InputOpts) (h : BuildHooks) :
    List BuildEvent × CallResult (List Chunk) :=
  match getInputOptions raw with
  | .error e => ([], CallResult.promise (Except.error e))
  | .ok _ =>
    let r := buildPhase h
    (r.1, CallResult.promise r.2)

/-- Dispatches of the generate-phase hooks and the chunk post-optimizer,
in dispatch order. -/
inductive GenEvent where
  | renderStart
  | optimize
  | renderError (e : RollupError)
  | generateBundle
deriving DecidableEq, Repr

def isOptimizeEvent : GenEvent → Bool
  | GenEvent.optimize => true
  | _ => false

def isRenderErrorEvent : GenEvent → Bool
  | GenEvent.renderError _ => true
  | _ => false

/-- Outcomes of the generate-phase collaborators for one generate call:
the chunk list produced by build, `graph.finaliseAssets` (the initial
bundle of standing assets), the `commondir` utility, the parallel
`renderStart` dispatch, `createAddons`, the pre-render loops, the chunk
id generators, the parallel chunk renders together with their
`ongenerate` dispatches, the parallel `renderError` dispatch as a
function of the error it is handed, the sequential `generateBundle`
dispatch, the finalization of assets still lacking a file name, and the
writer's file writes with their `onwrite` dispatches.  The chunk
post-optimizer is a collaborator invoked for effect; per its contract it
is modelled as total. -/
structure GenEnv where
  chunks : List Chunk
  finaliseAssets : Except RollupError (List OutputFile)
  commonDir : List String → String
  renderStart : Except RollupError Unit
  createAddons : Except RollupError Addons
  preRender : Except RollupError Unit
  genId : Chunk → String → String → Addons → JsObj → List String → String
  genIdPM : Chunk → String → String
  renderChunks : Except RollupError Unit
  renderErrorHook : RollupError → Except RollupError Unit
  generateBundleHook : Except RollupError Unit
  finaliseRemaining : Except RollupError Unit
  writeFiles : Except RollupError Unit

/-- Result of the render section of the generate promise chain: the hook
dispatches so far, the section's outcome (the populated bundle on
success), and the per-handle `optimized` flag after the call. -/
structure RenderOut where
  events : List GenEvent
  result : Except RollupError (List OutputFile)
  optimized : Bool
deriving Repr

/-- The section of the generate promise chain covered by the
`renderError` catch: `hookParallel('renderStart')`, `createAddons`, the
pre-render loops, the gated chunk post-optimization (`!optimized &&
inputOptions.optimizeChunks`, setting the flag), the naming pass, the
bundle population keyed by chunk id, and the parallel chunk renders. -/
def renderPhase (inp : InputOpts) (outputOptions : JsObj) (env : GenEnv)
    (bundle0 : List OutputFile) (optimized : Bool) : RenderOut :=
  match env.renderStart with
  | .error e => ⟨[GenEvent.renderStart], Except.error e, optimized⟩
  | .ok _ =>
  match env.createAddons with
  | .error e => ⟨[GenEvent.renderStart], Except.error e, optimized⟩
  | .ok addons =>
  match env.preRender with
  | .error e => ⟨[GenEvent.renderStart], Except.error e, optimized⟩
  | .ok _ =>
    let inputBase := env.commonDir (env.chunks.filterMap (fun c => c.entryModuleId))
    let doOpt := !optimized && inp.optimizeChunks
    let evs := if doOpt then [GenEvent.renderStart, GenEvent.optimize]
      else [GenEvent.renderStart]
    let optimized' := if doOpt then true else optimized
    let ids := nameChunks outputOptions inp.preserveModules env.genId env.genIdPM addons
      inputBase env.chunks
    let bundle := (env.chunks.zip ids).foldl
      (fun b p => bundleInsert b ⟨p.2, false, p.1.entryModuleId.isSome⟩) bundle0
    match env.renderChunks with
    | .error e => ⟨evs, Except.error e, optimized'⟩
    | .ok _ => ⟨evs, Except.ok bundle, optimized'⟩

/-- The generate promise chain after its synchronous head: the render
section, then the `catch` that dispatches `renderError` with the error
and rethrows it (a failing `renderError` dispatch replaces it), then the
sequential `generateBundle` dispatch and the finalization of remaining
assets — both outside the catch. -/
def generatePromise (inp : InputOpts) (outputOptions : JsObj) (env : GenEnv)
    (bundle0 : List OutputFile) (optimized : Bool) :
    List GenEvent × Except RollupError (List OutputFile) × Bool :=
  let r := renderPhase inp outputOptions env bundle0 optimized
  match r.result with
  | .error e =>
    (r.events ++ [GenEvent.renderError e],
     (match env.renderErrorHook e with
      | .error e2 => Except.error e2
      | .ok _ => Except.error e),
     r.optimized)
  | .ok bundle =>
    (r.events ++ [GenEvent.generateBundle],
     (match env.generateBundleHook with
      | .error e => Except.error e
      | .ok _ =>
        match env.finaliseRemaining with
        | .error e => Except.error e
        | .ok _ => Except.ok bundle),
     r.optimized)

/-- One call of the per-handle `generate` closure (also the body the
public handle's `generate` runs): `normalizeOutputOptions` and
`graph.finaliseAssets` run synchronously before any promise exists, so
their failures are synchronous throws; afterwards the promise chain
runs.  Returns the hook dispatches, the call result, and the per-handle
`optimized` flag after the call. -/
def generateCall (inp : InputOpts) (rawOutputOptions : Option (JsObj × JsObj))
    (hasMultipleChunks : Bool) (env : GenEnv) (optimized : Bool) :
    List GenEvent × CallResult (List OutputFile) × Bool :=
  match normalizeOutputOptions inp rawOutputOptions hasMultipleChunks with
  | .error e => ([], CallResult.thrown e, optimized)
  | .ok outputOptions =>
    match env.finaliseAssets with
    | .error e => ([], CallResult.thrown e, optimized)
    | .ok bundle0 =>
      let r := generatePromise inp outputOptions env bundle0 optimized
      (r.1, CallResult.promise r.2.1, r.2.2)

def errWriteMissingFileDir : RollupError :=
  ⟨some ("MISSING_OPTION"), ("You must specify output.file or output.dir for the build.")⟩

def errSourcemapFileMultiChunk : RollupError :=
  ⟨some ("INVALID_OPTION"), ("\"sourcemapFile\" is only supported for single-file builds.")⟩

/-- The message of the write-time multi-chunk `file` error, with its
conditional hint (`typeof inputOptions.input !== 'string' ||
inputOptions.inlineDynamicImports === true ? '' : ' To inline ...'`). -/
def writeMultiChunkFileMessage (inp : InputOpts) : String :=
  ("When building multiple chunks, the output.dir option must be used, not output.file.") ++
    (if (match inp.input with | .str _ => false | _ => true) || inp.inlineDynamicImports
     then ("")
     else (" To inline dynamic imports set the inlineDynamicImports: true option."))

def errWriteMultiChunkFile (inp : InputOpts) : RollupError :=
  ⟨some ("INVALID_OPTION"), writeMultiChunkFileMessage inp⟩

/-- The write-time chunk count: bundle entries that are not assets (the
source breaks out of the loop at two, which only short-circuits the same
count). -/
def countBundleChunks (bundle : List OutputFile) : Nat :=
  (bundle.filter (fun f => !f.isAsset)).length

/-- The public handle's `write`: a missing output object or an output
object with neither a truthy `dir` nor a truthy `file` throws the
`MISSING_OPTION` error synchronously, before `generate` is entered;
otherwise `generate(outputOptions, true)` runs and, on its resolved
bundle, a bundle with more than one chunk rejects a truthy
`sourcemapFile` and then a string `file` (both read off the raw object
`write` received); finally the files are written and the sorted output is
returned. -/
def writeCall (inp : InputOpts) (rawOutputOptions : Option (JsObj × JsObj))
    (hasMultipleChunks : Bool) (env : GenEnv) (optimized : Bool) :
    List GenEvent × CallResult (List OutputFile) × Bool :=
  match rawOutputOptions with
  | none => ([], CallResult.thrown errWriteMissingFileDir, optimized)
  | some (raw, rawOutputField) =>
    if !(getProp raw ("dir")).truthy && !(getProp raw ("file")).truthy then
      ([], CallResult.thrown errWriteMissingFileDir, optimized)
    else
      let g := generateCall inp (some (raw, rawOutputField)) hasMultipleChunks env optimized
      match g.2.1 with
      | CallResult.thrown e => (g.1, CallResult.thrown e, g.2.2)
      | CallResult.promise (Except.error e) =>
        (g.1, CallResult.promise (Except.error e), g.2.2)
      | CallResult.promise (Except.ok bundle) =>
        if countBundleChunks bundle > 1 && (getProp raw ("sourcemapFile")).truthy then
          (g.1, CallResult.promise (Except.error errSourcemapFileMultiChunk), g.2.2)
        else if countBundleChunks bundle > 1 && (getProp raw ("file")).isStringVal then
          (g.1, CallResult.promise (Except.error (errWriteMultiChunkFile inp)), g.2.2)
        else
          match env.writeFiles with
          | .error e => (g.1, CallResult.promise (Except.error e), g.2.2)
          | .ok _ => (g.1, CallResult.promise (Except.ok (createOutput bundle)), g.2.2)

/-- One step of a sequence of generate calls on the same handle: the call
runs with the flag left by the previous call and its dispatch trace is
appended. -/
def generateStep (inp : InputOpts) (hasMultipleChunks : Bool)
    (acc : List GenEvent × Bool) (call : Option (JsObj × JsObj) × GenEnv) :
    List GenEvent × Bool :=
  let r := generateCall inp call.1 hasMultipleChunks call.2 acc.2
  (acc.1 ++ r.1, r.2.2)

/-- A sequence of generate calls on one handle: the per-handle
`optimized` flag starts false and is threaded from call to call; the
dispatch traces are concatenated. -/
def generateSeq (inp : InputOpts) (hasMultipleChunks : Bool)
    (calls : List (Option (JsObj × JsObj) × GenEnv)) : List GenEvent × Bool :=
  calls.foldl (generateStep inp hasMultipleChunks) ([], false)

/-- The number of chunk post-optimizer invocations recorded in a trace. -/
def countOptimize (evs : List GenEvent) : Nat :=
  (evs.filter isOptimizeEvent).length

/-- The number of entry points an input specifier denotes (the spec's
reading of the entry specifier, used to state the entry-count claim). -/
def numEntries : InputValue → Nat
  | .str _ => 1
  | .arr xs => xs.length
  | .obj kvs => kvs.length
  | .undef => 0

/-- The id the naming loop's delegation branch produces for a chunk: the
selected pattern (entry facades use `entryFileNames`, defaulting to
`[name].js`; others use `chunkFileNames`, defaulting to
`[name]-[hash].js`), its option name, the addons, the output config and
the ids used so far are passed to the chunk's generator. -/
def delegatedId (o : JsObj)
    (genId : Chunk → String → String → Addons → JsObj → List String → String)
    (addons : Addons) (c : Chunk) (usedIds : List String) : String :=
  genId c (if c.isEntryModuleFacade then resolvedEntryPattern o else resolvedChunkPattern o)
    (if c.isEntryModuleFacade then ("output.entryFileNames") else ("output.chunkFileNames"))
    addons o usedIds

/-- The bundle entries of one sorting file type, in insertion order. -/
def kindFilter (n : Nat) (l : List OutputFile) : List OutputFile :=
  l.filter (fun f => getSortingFileType f == n)

/-- A collaborator environment in which every outcome succeeds, used to
evaluate the model at concrete inputs. -/
def okEnv : GenEnv where
  chunks := []
  finaliseAssets := Except.ok []
  commonDir := fun _ => ("")
  renderStart := Except.ok ()
  createAddons := Except.ok ⟨(""), (""), (""), ("")⟩
  preRender := Except.ok ()
  genId := fun _ pat _ _ _ _ => pat
  genIdPM := fun c _ => (match c.entryModuleId with | some s => s | none => (""))
  renderChunks := Except.ok ()
  renderErrorHook := fun _ => Except.ok ()
  generateBundleHook := Except.ok ()
  finaliseRemaining := Except.ok ()
  writeFiles := Except.ok ()

/-- A minimal valid input configuration: a single string entry, all flags
off, no output defaults. -/
def baseInput : InputOpts where
  input := InputValue.str ("x")
  preserveModules := false
  inlineDynamicImports := false
  manualChunks := false
  optimizeChunks := false
  output := []

/-- Build hooks in which everything succeeds. -/
def okHooks : BuildHooks where
  buildStart := Except.ok ()
  graphBuild := Except.ok []
  buildEnd := fun _ => Except.ok ()

/-- A sample build failure. -/
def buildErr : RollupError := ⟨none, ("could not resolve entry")⟩

/-- A sample chunk-render failure. -/
def renderErr : RollupError := ⟨none, ("render failed")⟩

/-- A sample failure of the `renderError` dispatch itself. -/
def renderHookErr : RollupError := ⟨none, ("renderError plugin hook failed")⟩

/-- Claim C2's counterexample environment: two chunks, one an entry
facade, everything succeeding. -/
def twoChunkEnv : GenEnv :=
  { okEnv with
    chunks := [⟨some ("/src/main1"), true⟩, ⟨none, false⟩],
    genId := fun c _ _ _ _ _ =>
      (match c.entryModuleId with | some _ => ("main1.js") | none => ("chunk-x.js")) }

/-- An environment whose chunk renders fail. -/
def renderFailEnv : GenEnv := { okEnv with renderChunks := Except.error renderErr }

/-- An environment whose chunk renders fail and whose `renderError`
dispatch itself fails. -/
def renderFailShadowEnv : GenEnv :=
  { okEnv with
    renderChunks := Except.error renderErr,
    renderErrorHook := fun _ => Except.error renderHookErr }

/-- An input configuration requesting chunk post-optimization. -/
def optimizeInput : InputOpts := { baseInput with optimizeChunks := true }

/-- A raw call-site output object that only sets the format. -/
def esRawOutput : JsObj := [(("format"), JsVal.str ("es"))]

/-- Claim C1's counterexample input: the input configuration's `output`
defaults set `format: 'es'`. -/
def c1Input : InputOpts := { baseInput with output := [(("format"), JsVal.str ("es"))] }

/-- Claim C1's counterexample call-site output object: `format: 'cjs'`. -/
def c1Raw : JsObj := [(("format"), JsVal.str ("cjs"))]

/-- Claim C2's counterexample call-site output object: a truthy
`sourcemapFile` next to a valid format. -/
def c2Raw : JsObj := [(("format"), JsVal.str ("es")), (("sourcemapFile"), JsVal.str ("/tmp/b.js.map"))]

/-- Claim C8's counterexample input: `inlineDynamicImports` with an empty
input array — it denotes zero entries. -/
def c8Input : InputOpts := { baseInput with input := InputValue.arr [], inlineDynamicImports := true }

/-- An input configuration combining `inlineDynamicImports` with a truthy
`manualChunks`. -/
def inlineManualInput : InputOpts :=
  { baseInput with inlineDynamicImports := true, manualChunks := true }

theorem fileComparator_le_iff (a b : OutputFile) :
    fileComparator a b ≤ 0 ↔ getSortingFileType a ≤ getSortingFileType b := by
  unfold fileComparator
  by_cases h : getSortingFileType a = getSortingFileType b
  · simp [h]
  · by_cases hlt : getSortingFileType a < getSortingFileType b
    · simp only [h, hlt, if_true, if_false]
      constructor
      · intro _; omega
      · intro _; omega
    · simp only [h, hlt, if_true, if_false]
      constructor
      · intro hc; omega
      · intro hc; omega

theorem sortInsert_front (x : OutputFile) (l : List OutputFile)
    (h : ∀ y ∈ l, getSortingFileType x ≤ getSortingFileType y) :
    sortInsert x l = x :: l := by
  cases l with
  | nil => rfl
  | cons y ys =>
    unfold sortInsert
    rw [if_pos ((fileComparator_le_iff x y).mpr (h y (List.mem_cons_self y ys)))]

theorem sortInsert_skip (x : OutputFile) (l0 l1 : List OutputFile)
    (h : ∀ y ∈ l0, getSortingFileType y < getSortingFileType x) :
    sortInsert x (l0 ++ l1) = l0 ++ sortInsert x l1 := by
  induction l0 with
  | nil => rfl
  | cons y ys ih =>
    have hy := h y (List.mem_cons_self y ys)
    have hc : ¬ fileComparator x y ≤ 0 := by
      rw [fileComparator_le_iff]; omega
    have hstep : sortInsert x (y :: (ys ++ l1)) = y :: sortInsert x (ys ++ l1) := by
      simp only [sortInsert]
      rw [if_neg hc]
    rw [List.cons_append, hstep, ih (fun z hz => h z (List.mem_cons_of_mem y hz)),
      List.cons_append]

theorem mem_kindFilter {n : Nat} {l : List OutputFile} {y : OutputFile}
    (h : y ∈ kindFilter n l) : getSortingFileType y = n := by
  unfold kindFilter at h
  have h2 := (List.mem_filter.mp h).2
  simpa using h2

theorem jsStableSort_eq_filters (l : List OutputFile) :
    jsStableSort l = kindFilter 0 l ++ kindFilter 1 l ++ kindFilter 2 l := by
  induction l with
  | nil => rfl
  | cons x xs ih =>
    have hx01 : getSortingFileType x = 0 ∨ getSortingFileType x = 1 ∨
        getSortingFileType x = 2 := by
      unfold getSortingFileType
      by_cases h1 : x.isAsset <;> by_cases h2 : x.isEntry <;> simp [h1, h2]
    have hcons : ∀ n, kindFilter n (x :: xs) =
        if getSortingFileType x == n then x :: kindFilter n xs else kindFilter n xs := by
      intro n
      simp [kindFilter, List.filter_cons]
    show sortInsert x (jsStableSort xs) = _
    rw [ih]
    rcases hx01 with h | h | h
    · have hfront : ∀ y ∈ kindFilter 0 xs ++ kindFilter 1 xs ++ kindFilter 2 xs,
          getSortingFileType x ≤ getSortingFileType y := by
        intro y _
        rw [h]
        exact Nat.zero_le _
      rw [sortInsert_front x _ hfront]
      simp [hcons, h]
    · have hskip : ∀ y ∈ kindFilter 0 xs, getSortingFileType y < getSortingFileType x := by
        intro y hy
        have := mem_kindFilter hy
        omega
      have hfront : ∀ y ∈ kindFilter 1 xs ++ kindFilter 2 xs,
          getSortingFileType x ≤ getSortingFileType y := by
        intro y hy
        rcases List.mem_append.mp hy with h1 | h2
        · have := mem_kindFilter h1; omega
        · have := mem_kindFilter h2; omega
      rw [List.append_assoc, sortInsert_skip x _ _ hskip, sortInsert_front x _ hfront]
      simp [hcons, h, List.append_assoc]
    · have hskip : ∀ y ∈ kindFilter 0 xs ++ kindFilter 1 xs,
          getSortingFileType y < getSortingFileType x := by
        intro y hy
        rcases List.mem_append.mp hy with h1 | h2
        · have := mem_kindFilter h1; omega
        · have := mem_kindFilter h2; omega
      have hfront : ∀ y ∈ kindFilter 2 xs, getSortingFileType x ≤ getSortingFileType y := by
        intro y hy
        have := mem_kindFilter hy
        omega
      rw [sortInsert_skip x _ _ hskip, sortInsert_front x _ hfront]
      simp [hcons, h]

/-- C7: the output list `createOutput` returns is the bundle's entry
chunks first, then its secondary chunks, then its assets, each group in
the bundle's insertion order — i.e. a stable sort by file kind. -/
theorem c7_output_sorted_stable (bundle : List OutputFile) :
    createOutput bundle =
      bundle.filter (fun f => getSortingFileType f == 0) ++
      bundle.filter (fun f => getSortingFileType f == 1) ++
      bundle.filter (fun f => getSortingFileType f == 2) := by
  have h := jsStableSort_eq_filters bundle
  simpa [createOutput, kindFilter] using h

theorem nameChunksGo_length (o : JsObj) (pm : Bool)
    (genId : Chunk → String → String → Addons → JsObj → List String → String)
    (genIdPM : Chunk → String → String) (addons : Addons) (inputBase : String) :
    ∀ (chs : List Chunk) (used : List String),
      (nameChunksGo o pm genId genIdPM addons inputBase chs used).length = chs.length := by
  intro chs
  induction chs with
  | nil => intro used; rfl
  | cons c rest ih =>
    intro used
    simp only [nameChunksGo]
    split
    · simp [ih]
    · split
      · simp [ih]
      · simp [ih]

theorem nameChunksGo_file (o : JsObj) (pm : Bool)
    (genId : Chunk → String → String → Addons → JsObj → List String → String)
    (genIdPM : Chunk → String → String) (addons : Addons) (inputBase : String)
    (hfile : (getProp o ("file")).truthy = true) :
    ∀ (chs : List Chunk) (used : List String),
      nameChunksGo o pm genId genIdPM addons inputBase chs used =
        chs.map (fun _ => basename ((getProp o ("file")).asString)) := by
  intro chs
  induction chs with
  | nil => intro used; rfl
  | cons c rest ih =>
    intro used
    simp only [nameChunksGo]
    rw [if_pos hfile, ih used, List.map_cons]

theorem nameChunksGo_preserve (o : JsObj)
    (genId : Chunk → String → String → Addons → JsObj → List String → String)
    (genIdPM : Chunk → String → String) (addons : Addons) (inputBase : String)
    (hfile : (getProp o ("file")).truthy = false) :
    ∀ (chs : List Chunk) (used : List String),
      nameChunksGo o true genId genIdPM addons inputBase chs used =
        chs.map (fun c => genIdPM c inputBase) := by
  intro chs
  induction chs with
  | nil => intro used; rfl
  | cons c rest ih =>
    intro used
    simp only [nameChunksGo]
    rw [if_neg (by simp [hfile]), if_pos trivial, ih used, List.map_cons]

theorem nameChunksGo_delegate (o : JsObj)
    (genId : Chunk → String → String → Addons → JsObj → List String → String)
    (genIdPM : Chunk → String → String) (addons : Addons) (inputBase : String)
    (hfile : (getProp o ("file")).truthy = false) :
    ∀ (chs : List Chunk) (used : List String) (i : Nat),
      (nameChunksGo o false genId genIdPM addons inputBase chs used)[i]? =
        (chs[i]?).map (fun c => delegatedId o genId addons c
          (used ++ (nameChunksGo o false genId genIdPM addons inputBase chs used).take i)) := by
  intro chs
  induction chs with
  | nil => intro used i; rfl
  | cons c rest ih =>
    intro used i
    have step : nameChunksGo o false genId genIdPM addons inputBase (c :: rest) used =
        delegatedId o genId addons c used ::
          nameChunksGo o false genId genIdPM addons inputBase rest
            (used ++ [delegatedId o genId addons c used]) := by
      simp only [nameChunksGo]
      rw [if_neg (by simp [hfile]), if_neg (by simp)]
      rfl
    simp only [step]
    cases i with
    | zero => simp
    | succ j =>
      rw [List.getElem?_cons_succ, List.getElem?_cons_succ, List.take_succ_cons,
        ih (used ++ [delegatedId o genId addons c used]) j]
      simp only [List.append_assoc, List.singleton_append]

/-- C6: chunk naming per generate call — with `usedIds` starting empty
and the chunks processed in build order, a chunk's id is
`basename(output.file)` when a truthy `file` is set; otherwise, under
`preserveModules`, the id comes from the chunk's preserve-modules
generator with `inputBase`; otherwise entry-facade chunks use the
`entryFileNames` pattern (default `[name].js`) and all other chunks use
the `chunkFileNames` pattern (default `[name]-[hash].js`), the generator
receiving the addons, the output config and exactly the ids generated
for the preceding chunks (each id is inserted into `usedIds` after its
delegated generation). -/
theorem c6_chunk_naming (o : JsObj) (pm : Bool)
    (genId : Chunk → String → String → Addons → JsObj → List String → String)
    (genIdPM : Chunk → String → String) (addons : Addons) (inputBase : String)
    (chunks : List Chunk) (i : Nat) (hi : i < chunks.length) :
    (nameChunks o pm genId genIdPM addons inputBase chunks).length = chunks.length ∧
    ((getProp o ("file")).truthy = true →
      (nameChunks o pm genId genIdPM addons inputBase chunks)[i]? =
        some (basename ((getProp o ("file")).asString))) ∧
    ((getProp o ("file")).truthy = false → pm = true →
      (nameChunks o pm genId genIdPM addons inputBase chunks)[i]? =
        (chunks[i]?).map (fun c => genIdPM c inputBase)) ∧
    ((getProp o ("file")).truthy = false → pm = false →
      (nameChunks o pm genId genIdPM addons inputBase chunks)[i]? =
        (chunks[i]?).map (fun c => delegatedId o genId addons c
          ((nameChunks o pm genId genIdPM addons inputBase chunks).take i))) := by
  refine ⟨?_, ?_, ?_, ?_⟩
  · exact nameChunksGo_length o pm genId genIdPM addons inputBase chunks []
  · intro hfile
    unfold nameChunks
    rw [nameChunksGo_file o pm genId genIdPM addons inputBase hfile chunks [],
      List.getElem?_map, List.getElem?_eq_getElem hi]
    rfl
  · intro hfile hpm
    subst hpm
    unfold nameChunks
    rw [nameChunksGo_preserve o genId genIdPM addons inputBase hfile chunks [],
      List.getElem?_map]
  · intro hfile hpm
    subst hpm
    unfold nameChunks
    have h := nameChunksGo_delegate o genId genIdPM addons inputBase hfile chunks [] i
    simpa using h

/-- Witness for C6: a concrete one-chunk run in delegation mode — the
entry facade is named by the default entry pattern. -/
theorem c6_chunk_naming_witness :
    (nameChunks [] false okEnv.genId okEnv.genIdPM ⟨(""), (""), (""), ("")⟩ ("")
        [⟨some ("a/x"), true⟩])[0]? = some (("[name].js")) := by
  have h := (c6_chunk_naming [] false okEnv.genId okEnv.genIdPM ⟨(""), (""), (""), ("")⟩
    ("") [⟨some ("a/x"), true⟩] 0 (by decide)).2.2.2 rfl rfl
  exact h.trans (by decide)

/-- C3: for every failure of the Graph build step, `buildEnd` is
dispatched exactly once, receiving that error, in the trace of the
top-level call, and the rollup promise rejects with the build error — or
with the `buildEnd` dispatch's own error, which shadows it. -/
theorem c3_buildEnd_on_build_failure (raw : Option InputOpts) (h : BuildHooks)
    (inp : InputOpts) (err : RollupError)
    (hin : getInputOptions raw = Except.ok inp)
    (hstart : h.buildStart = Except.ok ())
    (hbuild : h.graphBuild = Except.error err) :
    (rollupCall raw h).1.filter isBuildEndEvent = [BuildEvent.buildEnd (some err)] ∧
    (h.buildEnd (some err) = Except.ok () →
      (rollupCall raw h).2 = CallResult.promise (Except.error err)) ∧
    (∀ e2, h.buildEnd (some err) = Except.error e2 →
      (rollupCall raw h).2 = CallResult.promise (Except.error e2)) := by
  unfold rollupCall buildPhase
  simp only [hin, hstart, hbuild]
  refine ⟨?_, ?_, ?_⟩
  · simp [isBuildEndEvent, List.filter]
  · intro hbe
    simp [hbe]
  · intro e2 hbe
    simp [hbe]

/-- Witness for C3: a concrete failing build with a succeeding `buildEnd`
dispatch rejects with the build error. -/
theorem c3_buildEnd_on_build_failure_witness :
    (rollupCall (some baseInput) { okHooks with graphBuild := Except.error buildErr }).2 =
      CallResult.promise (Except.error buildErr) :=
  (c3_buildEnd_on_build_failure (some baseInput)
    { okHooks with graphBuild := Except.error buildErr }
    baseInput buildErr rfl rfl rfl).2.1 rfl

theorem countOptimize_append (a b : List GenEvent) :
    countOptimize (a ++ b) = countOptimize a + countOptimize b := by
  simp [countOptimize, List.filter_append]

theorem renderPhase_optimize_spec (inp : InputOpts) (o : JsObj) (env : GenEnv)
    (b0 : List OutputFile) (opt : Bool) :
    (countOptimize (renderPhase inp o env b0 opt).events ≤ 1) ∧
    (opt = true → countOptimize (renderPhase inp o env b0 opt).events = 0 ∧
      (renderPhase inp o env b0 opt).optimized = true) ∧
    (countOptimize (renderPhase inp o env b0 opt).events = 1 →
      (renderPhase inp o env b0 opt).optimized = true) ∧
    (opt = false → countOptimize (renderPhase inp o env b0 opt).events = 0 →
      (renderPhase inp o env b0 opt).optimized = false) := by
  unfold renderPhase
  cases env.renderStart with
  | error e => simp [countOptimize, isOptimizeEvent, List.filter]
  | ok u =>
    cases env.createAddons with
    | error e => simp [countOptimize, isOptimizeEvent, List.filter]
    | ok addons =>
      cases env.preRender with
      | error e => simp [countOptimize, isOptimizeEvent, List.filter]
      | ok v =>
        cases opt <;> cases hoc : inp.optimizeChunks <;>
          cases env.renderChunks <;>
            simp [countOptimize, isOptimizeEvent, List.filter]

theorem generatePromise_optimize (inp : InputOpts) (o : JsObj) (env : GenEnv)
    (b0 : List OutputFile) (opt : Bool) :
    countOptimize (generatePromise inp o env b0 opt).1 =
      countOptimize (renderPhase inp o env b0 opt).events ∧
    (generatePromise inp o env b0 opt).2.2 = (renderPhase inp o env b0 opt).optimized := by
  unfold generatePromise
  cases hres : (renderPhase inp o env b0 opt).result <;>
    simp [hres, countOptimize_append, countOptimize, isOptimizeEvent, List.filter]

theorem generateCall_optimize_spec (inp : InputOpts) (raw : Option (JsObj × JsObj))
    (multi : Bool) (env : GenEnv) (opt : Bool) :
    (countOptimize (generateCall inp raw multi env opt).1 ≤ 1) ∧
    (opt = true → countOptimize (generateCall inp raw multi env opt).1 = 0 ∧
      (generateCall inp raw multi env opt).2.2 = true) ∧
    (countOptimize (generateCall inp raw multi env opt).1 = 1 →
      (generateCall inp raw multi env opt).2.2 = true) ∧
    (opt = false → countOptimize (generateCall inp raw multi env opt).1 = 0 →
      (generateCall inp raw multi env opt).2.2 = false) := by
  unfold generateCall
  cases hn : normalizeOutputOptions inp raw multi with
  | error e => simp [countOptimize, List.filter]
  | ok o =>
    cases hb : env.finaliseAssets with
    | error e => simp [countOptimize, List.filter]
    | ok b0 =>
      have hp := generatePromise_optimize inp o env b0 opt
      have hr := renderPhase_optimize_spec inp o env b0 opt
      simp only [hp.1, hp.2]
      exact hr

theorem generateStep_inv (inp : InputOpts) (multi : Bool)
    (acc : List GenEvent × Bool) (call : Option (JsObj × JsObj) × GenEnv)
    (h1 : countOptimize acc.1 ≤ 1) (h2 : acc.2 = false → countOptimize acc.1 = 0) :
    countOptimize (generateStep inp multi acc call).1 ≤ 1 ∧
      ((generateStep inp multi acc call).2 = false →
        countOptimize (generateStep inp multi acc call).1 = 0) := by
  have spec := generateCall_optimize_spec inp call.1 multi call.2 acc.2
  unfold generateStep
  simp only [countOptimize_append]
  by_cases hb : acc.2 = true
  · have h0 := (spec.2.1 hb).1
    have hflagT := (spec.2.1 hb).2
    constructor
    · omega
    · intro hfalse
      rw [hflagT] at hfalse
      exact absurd hfalse (by simp)
  · have hbf : acc.2 = false := by
      cases hcc : acc.2
      · rfl
      · exact absurd hcc hb
    have h0 := h2 hbf
    have hle := spec.1
    constructor
    · omega
    · intro hfalse
      have hnot1 : countOptimize (generateCall inp call.1 multi call.2 acc.2).1 ≠ 1 := by
        intro h1c
        rw [spec.2.2.1 h1c] at hfalse
        exact absurd hfalse (by simp)
      omega

theorem generateSeq_foldl_inv (inp : InputOpts) (multi : Bool)
    (calls : List (Option (JsObj × JsObj) × GenEnv)) :
    ∀ acc : List GenEvent × Bool,
      countOptimize acc.1 ≤ 1 → (acc.2 = false → countOptimize acc.1 = 0) →
      countOptimize (List.foldl (generateStep inp multi) acc calls).1 ≤ 1 := by
  induction calls with
  | nil => intro acc ha hb; simpa using ha
  | cons c rest ih =>
    intro acc ha hb
    simp only [List.foldl_cons]
    have step := generateStep_inv inp multi acc c ha hb
    exact ih _ step.1 step.2

theorem renderPhase_optimize_fires (inp : InputOpts) (o : JsObj) (env : GenEnv)
    (b0 : List OutputFile) (addons : Addons)
    (hrs : env.renderStart = Except.ok ())
    (hca : env.createAddons = Except.ok addons)
    (hpre : env.preRender = Except.ok ())
    (hreq : inp.optimizeChunks = true) :
    countOptimize (renderPhase inp o env b0 false).events = 1 ∧
    (renderPhase inp o env b0 false).optimized = true := by
  unfold renderPhase
  simp only [hrs, hca, hpre, hreq]
  cases hrc : env.renderChunks <;>
    simp [hrc, countOptimize, isOptimizeEvent, List.filter]

/-- C5: across all generate calls on one handle, the chunk post-optimizer
runs at most once; once the per-handle `optimized` flag is set, a generate
call never dispatches the optimizer and leaves the flag set even when
`optimizeChunks` is requested; and a generate call that requests
`optimizeChunks`, starts with the flag unset and reaches the optimization
point (normalization, asset finalization, `renderStart`, `createAddons`
and the pre-render loops succeed) performs the pass and sets the flag. -/
theorem c5_optimize_at_most_once (inp : InputOpts) (hasMultipleChunks : Bool)
    (calls : List (Option (JsObj × JsObj) × GenEnv))
    (raw : Option (JsObj × JsObj)) (env : GenEnv) (o : JsObj) (b0 : List OutputFile)
    (addons : Addons)
    (hn : normalizeOutputOptions inp raw hasMultipleChunks = Except.ok o)
    (hb : env.finaliseAssets = Except.ok b0)
    (hrs : env.renderStart = Except.ok ())
    (hca : env.createAddons = Except.ok addons)
    (hpre : env.preRender = Except.ok ())
    (hreq : inp.optimizeChunks = true) :
    countOptimize (generateSeq inp hasMultipleChunks calls).1 ≤ 1 ∧
    (∀ (raw2 : Option (JsObj × JsObj)) (env2 : GenEnv),
      countOptimize (generateCall inp raw2 hasMultipleChunks env2 true).1 = 0 ∧
      (generateCall inp raw2 hasMultipleChunks env2 true).2.2 = true) ∧
    (countOptimize (generateCall inp raw hasMultipleChunks env false).1 = 1 ∧
      (generateCall inp raw hasMultipleChunks env false).2.2 = true) := by
  refine ⟨?_, ?_, ?_⟩
  · unfold generateSeq
    exact generateSeq_foldl_inv inp hasMultipleChunks calls ([], false)
      (by simp [countOptimize]) (fun _ => by simp [countOptimize])
  · intro raw2 env2
    exact (generateCall_optimize_spec inp raw2 hasMultipleChunks env2 true).2.1 rfl
  · unfold generateCall
    simp only [hn, hb]
    have hp := generatePromise_optimize inp o env b0 false
    have hr := renderPhase_optimize_fires inp o env b0 addons hrs hca hpre hreq
    exact ⟨hp.1.trans hr.1, hp.2.trans hr.2⟩

/-- Witness for C5: a concrete handle whose input requests
`optimizeChunks` — the first generate performs the pass and sets the
flag. -/
theorem c5_optimize_at_most_once_witness :
    countOptimize (generateCall optimizeInput (some (esRawOutput, [])) false okEnv false).1 = 1 ∧
    (generateCall optimizeInput (some (esRawOutput, [])) false okEnv false).2.2 = true :=
  (c5_optimize_at_most_once optimizeInput false [] (some (esRawOutput, [])) okEnv
    (consolidatedOutputOptions optimizeInput esRawOutput []) [] ⟨(""), (""), (""), ("")⟩
    rfl rfl rfl rfl rfl rfl).2.2

theorem renderPhase_no_renderError (inp : InputOpts) (o : JsObj) (env : GenEnv)
    (b0 : List OutputFile) (opt : Bool) :
    (renderPhase inp o env b0 opt).events.filter isRenderErrorEvent = [] := by
  unfold renderPhase
  cases env.renderStart with
  | error e => simp [isRenderErrorEvent, List.filter]
  | ok u =>
    cases env.createAddons with
    | error e => simp [isRenderErrorEvent, List.filter]
    | ok addons =>
      cases env.preRender with
      | error e => simp [isRenderErrorEvent, List.filter]
      | ok v =>
        cases opt <;> cases hoc : inp.optimizeChunks <;>
          cases env.renderChunks <;> simp [isRenderErrorEvent, List.filter]

/-- C4 (amended): failures of the asynchronous render section — from the
`renderStart` dispatch through addon creation, pre-rendering and the
chunk renders — dispatch `renderError` exactly once with the error; if
that dispatch succeeds the very same error is rethrown, and if it fails
its own error replaces the original in the rejection.  Failures inside or
after the `generateBundle` hook, and synchronous failures raised before
the promise chain exists (output normalization, asset finalization), do
not trigger `renderError`. -/
theorem c4_renderError_dispatch (inp : InputOpts) (raw : Option (JsObj × JsObj))
    (multi : Bool) (env : GenEnv) (optimized : Bool) :
    (∀ e, normalizeOutputOptions inp raw multi = Except.error e →
      (generateCall inp raw multi env optimized).1.filter isRenderErrorEvent = [] ∧
      (generateCall inp raw multi env optimized).2.1 = CallResult.thrown e) ∧
    (∀ o e, normalizeOutputOptions inp raw multi = Except.ok o →
      env.finaliseAssets = Except.error e →
      (generateCall inp raw multi env optimized).1.filter isRenderErrorEvent = [] ∧
      (generateCall inp raw multi env optimized).2.1 = CallResult.thrown e) ∧
    (∀ o b0 e, normalizeOutputOptions inp raw multi = Except.ok o →
      env.finaliseAssets = Except.ok b0 →
      (renderPhase inp o env b0 optimized).result = Except.error e →
      (generateCall inp raw multi env optimized).1.filter isRenderErrorEvent =
        [GenEvent.renderError e] ∧
      (env.renderErrorHook e = Except.ok () →
        (generateCall inp raw multi env optimized).2.1 =
          CallResult.promise (Except.error e)) ∧
      (∀ e2, env.renderErrorHook e = Except.error e2 →
        (generateCall inp raw multi env optimized).2.1 =
          CallResult.promise (Except.error e2))) ∧
    (∀ o b0 bundle, normalizeOutputOptions inp raw multi = Except.ok o →
      env.finaliseAssets = Except.ok b0 →
      (renderPhase inp o env b0 optimized).result = Except.ok bundle →
      (generateCall inp raw multi env optimized).1.filter isRenderErrorEvent = []) := by
  refine ⟨?_, ?_, ?_, ?_⟩
  · intro e hn
    unfold generateCall
    simp [hn, List.filter]
  · intro o e hn hb
    unfold generateCall
    simp [hn, hb, List.filter]
  · intro o b0 e hn hb hres
    unfold generateCall generatePromise
    simp only [hn, hb, hres]
    refine ⟨?_, ?_, ?_⟩
    · simp [List.filter_append, renderPhase_no_renderError, isRenderErrorEvent, List.filter]
    · intro hhook
      simp [hhook]
    · intro e2 hhook
      simp [hhook]
  · intro o b0 bundle hn hb hres
    unfold generateCall generatePromise
    simp only [hn, hb, hres]
    simp [List.filter_append, renderPhase_no_renderError, isRenderErrorEvent, List.filter]

/-- Witness for C4: a concrete render failure with a succeeding
`renderError` dispatch — the hook fires once with the error and exactly
that error is rethrown. -/
theorem c4_renderError_dispatch_witness :
    (generateCall baseInput (some (esRawOutput, [])) false renderFailEnv false).1.filter
        isRenderErrorEvent = [GenEvent.renderError renderErr] ∧
    (generateCall baseInput (some (esRawOutput, [])) false renderFailEnv false).2.1 =
      CallResult.promise (Except.error renderErr) := by
  have h := (c4_renderError_dispatch baseInput (some (esRawOutput, [])) false
    renderFailEnv false).2.2.1
    (consolidatedOutputOptions baseInput esRawOutput []) [] renderErr rfl rfl rfl
  exact ⟨h.1, h.2.1 rfl⟩

/-- Counterexample to C4 as stated: (a) a failure of the generate
pipeline before `generateBundle` — a missing `format` caught by output
normalization — never dispatches `renderError` at all; (b) when the
`renderError` dispatch itself fails, the rejection carries the dispatch's
own error, not the original render error, so the original is not
rethrown. -/
theorem c4_renderError_dispatch_counterexample :
    ((generateCall baseInput (some ([], [])) false okEnv false).1.filter
        isRenderErrorEvent = [] ∧
      (generateCall baseInput (some ([], [])) false okEnv false).2.1 =
        CallResult.thrown errNoFormat) ∧
    ((generateCall baseInput (some (esRawOutput, [])) false renderFailShadowEnv false).1.filter
        isRenderErrorEvent = [GenEvent.renderError renderErr] ∧
      (generateCall baseInput (some (esRawOutput, [])) false renderFailShadowEnv false).2.1 =
        CallResult.promise (Except.error renderHookErr) ∧
      renderHookErr ≠ renderErr) := by
  refine ⟨⟨rfl, rfl⟩, rfl, rfl, ?_⟩
  intro h
  exact absurd (congrArg RollupError.message h) (by decide)

theorem normalizeOutputOptions_ok_eq (inp : InputOpts) (raw rawOutputField : JsObj)
    (multi : Bool) (o : JsObj)
    (hok : normalizeOutputOptions inp (some (raw, rawOutputField)) multi = Except.ok o) :
    o = consolidatedOutputOptions inp raw rawOutputField := by
  simp only [normalizeOutputOptions] at hok
  cases h1 : checkOutputOptions (consolidatedOutputOptions inp raw rawOutputField) with
  | error e => rw [h1] at hok; exact Except.noConfusion hok
  | ok u =>
    rw [h1] at hok
    cases h2 : checkFileOptions inp (consolidatedOutputOptions inp raw rawOutputField) with
    | error e => rw [h2] at hok; exact Except.noConfusion hok
    | ok v =>
      rw [h2] at hok
      cases h3 : checkMultiChunk (consolidatedOutputOptions inp raw rawOutputField) multi with
      | error e => rw [h3] at hok; exact Except.noConfusion hok
      | ok w =>
        rw [h3] at hok
        injection hok with he
        exact he.symm

theorem getProp_append_left (a b : JsObj) (k : String) (h : hasProp a k = true) :
    getProp (a ++ b) k = getProp a k := by
  induction a with
  | nil => simp [hasProp] at h
  | cons p rest ih =>
    by_cases hp : (p.1 == k) = true
    · simp [getProp, List.find?_cons, hp]
    · have hpf : (p.1 == k) = false := by
        cases hq : (p.1 == k)
        · rfl
        · exact absurd hq hp
      have h2 : hasProp rest k = true := by
        simp only [hasProp, List.find?_cons, hpf] at h ⊢
        exact h
      have h3 := ih h2
      simp only [getProp, List.cons_append, List.find?_cons, hpf] at h3 ⊢
      exact h3

/-- C1 (amended): normalize-output layers the input's `output` defaults
*on top of* the call-site options — for every key present in the input's
`output` defaults, the resulting OutputConfig carries the input's value,
overriding any per-call value. -/
theorem c1_input_output_overrides (inp : InputOpts) (raw rawOutputField : JsObj)
    (multi : Bool) (o : JsObj) (k : String)
    (hok : normalizeOutputOptions inp (some (raw, rawOutputField)) multi = Except.ok o)
    (hk : hasProp inp.output k = true) :
    getProp o k = getProp inp.output k := by
  rw [normalizeOutputOptions_ok_eq inp raw rawOutputField multi o hok]
  unfold consolidatedOutputOptions jsSpread
  exact getProp_append_left inp.output (rawOutputField ++ raw) k hk

/-- Witness for C1's amended statement: with call-site `format: 'cjs'`
and input defaults `format: 'es'`, the normalized config reads `'es'`. -/
theorem c1_input_output_overrides_witness :
    getProp (consolidatedOutputOptions c1Input c1Raw []) ("format") =
      getProp c1Input.output ("format") :=
  c1_input_output_overrides c1Input c1Raw [] false
    (consolidatedOutputOptions c1Input c1Raw []) ("format") rfl rfl

/-- Counterexample to C1 as stated: `format` is present both in the
call-site output object (`'cjs'`) and in the input's `output` defaults
(`'es'`); the OutputConfig that normalize-output returns carries the
input's `'es'`, not the per-call `'cjs'`. -/
theorem c1_counterexample :
    hasProp c1Raw ("format") = true ∧
    getProp c1Raw ("format") = JsVal.str ("cjs") ∧
    hasProp c1Input.output ("format") = true ∧
    getProp c1Input.output ("format") = JsVal.str ("es") ∧
    (normalizeOutputOptions c1Input (some (c1Raw, [])) false).toOption.map
      (fun o => getProp o ("format")) = some (JsVal.str ("es")) ∧
    JsVal.str ("es") ≠ JsVal.str ("cjs") := by
  refine ⟨rfl, rfl, rfl, rfl, rfl, by decide⟩

theorem checkFileOptions_error_code (inp : InputOpts) (o : JsObj) (e : RollupError)
    (h : checkFileOptions inp o = Except.error e) : e.code = some ("INVALID_OPTION") := by
  unfold checkFileOptions at h
  split at h
  · split at h
    · injection h with he; rw [← he]; rfl
    · split at h
      · injection h with he; rw [← he]; rfl
      · split at h
        · injection h with he; rw [← he]; rfl
        · exact Except.noConfusion h
  · exact Except.noConfusion h

theorem checkMultiChunk_error_code (o : JsObj) (multi : Bool) (e : RollupError)
    (h : checkMultiChunk o multi = Except.error e) : e.code = some ("INVALID_OPTION") := by
  unfold checkMultiChunk at h
  split at h
  · split at h
    · injection h with he; rw [← he]; rfl
    · split at h
      · injection h with he; rw [← he]; rfl
      · exact Except.noConfusion h
  · exact Except.noConfusion h

/-- C2 (amended): when the build produced more than one chunk, a UMD or
IIFE format and a string `file` are rejected with INVALID_OPTION already
by output normalization — hence by both generate and write — while a
truthy `sourcemapFile` is rejected only by `write`, after the bundle has
been generated, when that bundle holds more than one chunk. -/
theorem c2_multichunk_gates :
    (∀ (inp : InputOpts) (raw rawOutputField : JsObj),
      (getProp (consolidatedOutputOptions inp raw rawOutputField) ("format") =
          JsVal.str ("umd") ∨
        getProp (consolidatedOutputOptions inp raw rawOutputField) ("format") =
          JsVal.str ("iife")) →
      ∃ e, normalizeOutputOptions inp (some (raw, rawOutputField)) true = Except.error e ∧
        e.code = some ("INVALID_OPTION")) ∧
    (∀ (inp : InputOpts) (raw rawOutputField : JsObj) (s : String),
      checkOutputOptions (consolidatedOutputOptions inp raw rawOutputField) = Except.ok () →
      getProp (consolidatedOutputOptions inp raw rawOutputField) ("file") = JsVal.str s →
      ∃ e, normalizeOutputOptions inp (some (raw, rawOutputField)) true = Except.error e ∧
        e.code = some ("INVALID_OPTION")) ∧
    (∀ (inp : InputOpts) (raw rawOutputField : JsObj) (env : GenEnv) (optimized : Bool)
      (evs : List GenEvent) (bundle : List OutputFile) (opt2 : Bool),
      generateCall inp (some (raw, rawOutputField)) true env optimized =
        (evs, CallResult.promise (Except.ok bundle), opt2) →
      countBundleChunks bundle > 1 →
      (getProp raw ("sourcemapFile")).truthy = true →
      ((getProp raw ("dir")).truthy = true ∨ (getProp raw ("file")).truthy = true) →
      writeCall inp (some (raw, rawOutputField)) true env optimized =
        (evs, CallResult.promise (Except.error errSourcemapFileMultiChunk), opt2)) := by
  refine ⟨?_, ?_, ?_⟩
  · intro inp raw ro hfmt
    have hco : checkOutputOptions (consolidatedOutputOptions inp raw ro) = Except.ok () := by
      unfold checkOutputOptions
      rcases hfmt with h | h <;> rw [h] <;> simp [JsVal.truthy]
    simp only [normalizeOutputOptions, hco]
    cases hcf : checkFileOptions inp (consolidatedOutputOptions inp raw ro) with
    | error e =>
      exact ⟨e, by simp [hcf], checkFileOptions_error_code inp _ e hcf⟩
    | ok v =>
      have hmc : checkMultiChunk (consolidatedOutputOptions inp raw ro) true =
          Except.error errUmdIifeCodeSplit := by
        unfold checkMultiChunk
        rcases hfmt with h | h <;> simp [h]
      exact ⟨errUmdIifeCodeSplit, by simp [hcf, hmc], rfl⟩
  · intro inp raw ro s hco hfile
    simp only [normalizeOutputOptions, hco]
    cases hcf : checkFileOptions inp (consolidatedOutputOptions inp raw ro) with
    | error e =>
      exact ⟨e, by simp [hcf], checkFileOptions_error_code inp _ e hcf⟩
    | ok v =>
      cases hmc : checkMultiChunk (consolidatedOutputOptions inp raw ro) true with
      | error e =>
        exact ⟨e, by simp [hcf, hmc], checkMultiChunk_error_code _ true e hmc⟩
      | ok w =>
        exfalso
        unfold checkMultiChunk at hmc
        rw [if_pos rfl] at hmc
        split at hmc
        · exact Except.noConfusion hmc
        · rw [if_pos (show (getProp (consolidatedOutputOptions inp raw ro)
              ("file")).isStringVal = true from by rw [hfile]; rfl)] at hmc
          exact Except.noConfusion hmc
  · intro inp raw ro env optimized evs bundle opt2 hgen hcnt hsm hdf
    simp only [writeCall]
    have hguard : ¬((!(getProp raw ("dir")).truthy && !(getProp raw ("file")).truthy) = true) := by
      rcases hdf with h | h <;> simp [h]
    rw [if_neg hguard]
    simp only [hgen]
    simp [hcnt, hsm]

/-- Witness for C2's amended statement: a multi-chunk normalization with
format `umd` is rejected with INVALID_OPTION. -/
theorem c2_multichunk_gates_witness :
    ∃ e, normalizeOutputOptions baseInput
        (some ([(("format"), JsVal.str ("umd"))], [])) true = Except.error e ∧
      e.code = some ("INVALID_OPTION") :=
  c2_multichunk_gates.1 baseInput [(("format"), JsVal.str ("umd"))] [] (Or.inl rfl)

/-- Counterexample to C2 as stated: a multi-chunk generate whose output
sets a truthy `sourcemapFile` (format `es`, no `file`) resolves
successfully — generate raises no INVALID_OPTION for `sourcemapFile`;
only `write` does. -/
theorem c2_counterexample :
    (getProp c2Raw ("sourcemapFile")).truthy = true ∧
    (generateCall baseInput (some (c2Raw, [])) true twoChunkEnv false).2.1 =
      CallResult.promise (Except.ok
        [⟨("main1.js"), false, true⟩, ⟨("chunk-x.js"), false, false⟩]) ∧
    countBundleChunks
      [⟨("main1.js"), false, true⟩, ⟨("chunk-x.js"), false, false⟩] = 2 := by
  exact ⟨rfl, rfl, rfl⟩

theorem numEntries_le_one_no_multiple (v : InputValue) (h : numEntries v ≤ 1) :
    hasMultipleInputs v = false := by
  cases v with
  | str s => rfl
  | arr xs =>
    simp only [numEntries] at h
    simp [hasMultipleInputs]
    omega
  | obj kvs =>
    simp only [numEntries] at h
    simp [hasMultipleInputs]
    omega
  | undef => rfl

theorem numEntries_gt_one_multiple (v : InputValue) (h : numEntries v > 1) :
    hasMultipleInputs v = true := by
  cases v with
  | str s => simp [numEntries] at h
  | arr xs =>
    simp only [numEntries] at h
    simp [hasMultipleInputs]
    omega
  | obj kvs =>
    simp only [numEntries] at h
    simp [hasMultipleInputs]
    omega
  | undef => simp [numEntries] at h

/-- C8 (amended): input normalization fails with INVALID_OPTION when
`inlineDynamicImports` is combined with a truthy `manualChunks` or a
truthy `optimizeChunks`, and it rejects inputs denoting *more than one*
entry; an input denoting zero or one entry is not rejected by
normalization (absent any other violation the options pass). -/
theorem c8_inline_dynamic_imports (o : InputOpts) (hidi : o.inlineDynamicImports = true) :
    (o.manualChunks = true →
      getInputOptions (some o) = Except.error errManualChunksInline) ∧
    (o.manualChunks = false → o.optimizeChunks = true →
      getInputOptions (some o) = Except.error errOptimizeInline) ∧
    (numEntries o.input > 1 →
      ∃ e, getInputOptions (some o) = Except.error e ∧ e.code = some ("INVALID_OPTION")) ∧
    (numEntries o.input ≤ 1 → o.manualChunks = false → o.optimizeChunks = false →
      o.preserveModules = false → getInputOptions (some o) = Except.ok o) := by
  refine ⟨?_, ?_, ?_, ?_⟩
  · intro hm
    unfold getInputOptions
    simp [hidi, hm]
  · intro hm hoc
    unfold getInputOptions
    simp [hidi, hm, hoc]
  · intro hn
    by_cases hm : o.manualChunks = true
    · exact ⟨errManualChunksInline, by unfold getInputOptions; simp [hidi, hm], rfl⟩
    · rw [Bool.not_eq_true] at hm
      by_cases hoc : o.optimizeChunks = true
      · exact ⟨errOptimizeInline, by unfold getInputOptions; simp [hidi, hm, hoc], rfl⟩
      · rw [Bool.not_eq_true] at hoc
        refine ⟨errMultipleInputsInline, ?_, rfl⟩
        unfold getInputOptions
        simp [hidi, hm, hoc, numEntries_gt_one_multiple o.input hn]
  · intro hn hm hoc hpm
    unfold getInputOptions
    simp [hidi, hm, hoc, hpm, numEntries_le_one_no_multiple o.input hn]

/-- Witness for C8's amended statement: `inlineDynamicImports` together
with a truthy `manualChunks` is rejected. -/
theorem c8_inline_dynamic_imports_witness :
    getInputOptions (some inlineManualInput) = Except.error errManualChunksInline :=
  (c8_inline_dynamic_imports inlineManualInput rfl).1 rfl

/-- Counterexample to C8 as stated: with `inlineDynamicImports` set, the
input `[]` denotes zero entries — not exactly one — yet input
normalization succeeds instead of failing. -/
theorem c8_counterexample :
    numEntries c8Input.input = 0 ∧ numEntries c8Input.input ≠ 1 ∧
    c8Input.inlineDynamicImports = true ∧
    getInputOptions (some c8Input) = Except.ok c8Input := by
  exact ⟨rfl, by decide, rfl, rfl⟩

/-- C9 (amended): a `write` call with no output object, or whose output
object has neither a truthy `dir` nor a truthy `file`, throws the
MISSING_OPTION error `'You must specify output.file or output.dir for
the build.'` synchronously — before any promise exists — and no
generation or write happens (the dispatch trace is empty and the
per-handle flag is untouched). -/
theorem c9_write_missing_file_dir (inp : InputOpts) (multi : Bool) (env : GenEnv)
    (optimized : Bool) (raw rawOutputField : JsObj) :
    (writeCall inp none multi env optimized =
      ([], CallResult.thrown errWriteMissingFileDir, optimized)) ∧
    ((getProp raw ("dir")).truthy = false → (getProp raw ("file")).truthy = false →
      writeCall inp (some (raw, rawOutputField)) multi env optimized =
        ([], CallResult.thrown errWriteMissingFileDir, optimized)) ∧
    errWriteMissingFileDir.code = some ("MISSING_OPTION") := by
  refine ⟨rfl, ?_, rfl⟩
  intro h1 h2
  simp only [writeCall]
  rw [if_pos (by simp [h1, h2])]

/-- Witness for C9's amended statement: `write(\x7b\x7d)` with an empty
output object throws the MISSING_OPTION error. -/
theorem c9_write_missing_file_dir_witness :
    writeCall baseInput (some ([], [])) false okEnv false =
      ([], CallResult.thrown errWriteMissingFileDir, false) :=
  (c9_write_missing_file_dir baseInput false okEnv false [] []).2.1 rfl rfl

/-- Counterexample to C9 as stated: `write` with no output object does
not reject — it throws synchronously; the call result is a synchronous
throw of the MISSING_OPTION error and not a rejected promise. -/
theorem c9_counterexample :
    (writeCall baseInput none false okEnv false).2.1 =
      CallResult.thrown errWriteMissingFileDir ∧
    CallResult.isRejectedPromise (writeCall baseInput none false okEnv false).2.1 = false ∧
    (writeCall baseInput none false okEnv false).1 = [] := by
  exact ⟨rfl, rfl, rfl⟩

/-- C10: option-validation failures of the handle's `generate` are raised
synchronously at the call site — when output normalization fails, the
generate call throws that error before any promise exists and dispatches
no hook — while the top-level `rollup` entry converts its synchronous
input-normalization failures into a rejected promise. -/
theorem c10_sync_throw_vs_rejected (inp : InputOpts) (rawOutput : Option (JsObj × JsObj))
    (multi : Bool) (env : GenEnv) (optimized : Bool)
    (rawIn : Option InputOpts) (h : BuildHooks) :
    (∀ e, normalizeOutputOptions inp rawOutput multi = Except.error e →
      generateCall inp rawOutput multi env optimized = ([], CallResult.thrown e, optimized)) ∧
    (∀ e, getInputOptions rawIn = Except.error e →
      rollupCall rawIn h = ([], CallResult.promise (Except.error e))) := by
  constructor
  · intro e hn
    unfold generateCall
    simp [hn]
  · intro e hn
    unfold rollupCall
    simp [hn]

/-- Witness for C10: `generate(\x7bfile: 'x'\x7d)` without a format
throws the missing-format error synchronously, and `rollup()` without an
options object yields a rejected promise. -/
theorem c10_sync_throw_vs_rejected_witness :
    generateCall baseInput (some ([(("file"), JsVal.str ("x"))], [])) false okEnv false =
      ([], CallResult.thrown errNoFormat, false) ∧
    rollupCall none okHooks = ([], CallResult.promise (Except.error errNoInputOptions)) :=
  ⟨(c10_sync_throw_vs_rejected baseInput (some ([(("file"), JsVal.str ("x"))], []))
      false okEnv false none okHooks).1 errNoFormat rfl,
    (c10_sync_throw_vs_rejected baseInput (some ([(("file"), JsVal.str ("x"))], []))
      false okEnv false none okHooks).2 errNoInputOptions rfl⟩

end RollupCore
